import Mathlib

/-!
Shallow embedding of the gomechan helper layer (response builder and
template registry) for verification of its specification.

External effects are made explicit:
  - the filesystem is a record of listing/reading functions (`FS`);
  - the outcome of the sink body write is a parameter of `Send`
    (`none` = success, `some e` = the write error `e`);
  - the html/template engine is a record of parse/execute functions
    (`TemplateEngine`), since that library is outside the repository;
  - JSON marshalling is a parameter of `AsJson` for the same reason;
  - log emissions and sink writes are returned as explicit data.
-/

namespace Gomechan

/-- Model of the filesystem consumed by the template registry:
`readDir` models `os.ReadDir` (returns direct entry names),
`readFile` models `os.ReadFile` (returns file contents). -/
structure FS where
  readDir : String → Except String (List String)
  readFile : String → Except String String

/-- Model of Go `path.Join folder file` for the plain nonempty-segment case
used by the registry. -/
def pathJoin (a b : String) : String := a ++ "/" ++ b

/-- Model of Go `strings.HasSuffix s suf`. -/
def hasSuffix (s suf : String) : Bool := List.isSuffixOf suf.data s.data

/-- Go `map[string]string` modelled as an association list with
first-occurrence lookup (Go maps have unique keys, so duplicate keys never
arise from the embedded operations). -/
structure Headers where
  entries : List (String × String)

/-- First-occurrence association lookup, modelling Go map indexing. -/
def lookupEntries : List (String × String) → String → Option String
  | [], _ => none
  | (k1, v) :: rest, k => if k1 = k then some v else lookupEntries rest k

/-- Lookup of a header key. -/
def Headers.lookup (h : Headers) (k : String) : Option String :=
  lookupEntries h.entries k

/-- Go map assignment `m[k] = v`: replace the entry for `k` if present,
otherwise add it. -/
def setEntries : List (String × String) → String → String → List (String × String)
  | [], k, v => [(k, v)]
  | (k1, v1) :: rest, k, v =>
    if k1 = k then (k, v) :: rest
    else (k1, v1) :: setEntries rest k v

/-- Updating a key then looking it up yields the new value. -/
theorem lookupEntries_setEntries_same (l : List (String × String)) (k v : String) :
    lookupEntries (setEntries l k v) k = some v := by
  induction l with
  | nil => simp [setEntries, lookupEntries]
  | cons p rest ih =>
    obtain ⟨k1, v1⟩ := p
    by_cases h : k1 = k
    · simp [setEntries, h, lookupEntries]
    · simp [setEntries, h, lookupEntries, ih]

/-- Updating a key leaves every other key unchanged. -/
theorem lookupEntries_setEntries_other (l : List (String × String)) (k v k2 : String)
    (hne : k2 ≠ k) : lookupEntries (setEntries l k v) k2 = lookupEntries l k2 := by
  induction l with
  | nil => simp [setEntries, lookupEntries, Ne.symm hne]
  | cons p rest ih =>
    obtain ⟨k1, v1⟩ := p
    by_cases h : k1 = k
    · subst h
      simp [setEntries, lookupEntries, Ne.symm hne]
    · simp [setEntries, h, lookupEntries, ih]

/-- Model of Go `strings.Split s (String.singleton sep)` on the character
list of `s`: splits at every occurrence of `sep`; the result is never empty
(`Split` of the empty string is a one-element list holding the empty
string). -/
def splitGo (sep : Char) : List Char → List (List Char)
  | [] => [[]]
  | c :: rest =>
    if c = sep then [] :: splitGo sep rest
    else
      match splitGo sep rest with
      | [] => [[c]]
      | g :: gs => (c :: g) :: gs

theorem splitGo_ne_nil (sep : Char) (l : List Char) : splitGo sep l ≠ [] := by
  cases l with
  | nil => simp [splitGo]
  | cons c rest =>
    by_cases h : c = sep
    · simp [splitGo, h]
    · simp only [splitGo, h, if_false]
      cases hs : splitGo sep rest <;> simp

/-- The first field of a Go split is the longest prefix free of the
separator. -/
theorem splitGo_headD (sep : Char) (l : List Char) :
    (splitGo sep l).headD [] = l.takeWhile (fun c => c != sep) := by
  induction l with
  | nil => simp [splitGo]
  | cons c rest ih =>
    by_cases h : c = sep
    · simp [splitGo, h, List.takeWhile]
    · simp only [splitGo, h, if_false]
      cases hs : splitGo sep rest with
      | nil => exact absurd hs (splitGo_ne_nil sep rest)
      | cons g gs =>
        have hb : (c != sep) = true := by simp [h]
        rw [hs] at ih
        simp only [List.headD] at ih
        simp [List.takeWhile_cons, hb, ih]

/-- The address field written to the log:
`strings.Split(r.r.RemoteAddr, ":")[0]`. -/
def logAddr (addr : String) : String :=
  String.mk ((splitGo ':' addr.data).headD [])

/-- One structured log record, as emitted by `Send` via `slog.Info`:
status, elapsed time, remote address (port stripped), method, URL, in that
fixed order. Time is modelled as an abstract `Nat` tick. -/
structure LogRecord where
  status : Nat
  elapsed : Nat
  addr : String
  method : String
  url : String

/-- The `ResponseWriter` struct of `core/response/response.go`.  The bound
`*http.ResponseWriter` sink is modelled by passing the sink outcome to
`Send`; the bound `*http.Request` is modelled by its three fields the code
reads (`RemoteAddr`, `Method`, `URL`). -/
structure ResponseWriter where
  status : Nat
  body : String
  headers : Headers
  start : Nat
  ignoreLog : Bool
  remoteAddr : String
  method : String
  url : String

/-- `New(w, r)`: status 200, empty headers and body, logging enabled,
`start` set to the current time. -/
def New (remoteAddr method url : String) (now : Nat) : ResponseWriter :=
  { start := now
    ignoreLog := false
    status := 200
    headers := ⟨[]⟩
    body := ""
    remoteAddr := remoteAddr
    method := method
    url := url }

/-- `Build(status, body)`: sets status and body, returns the builder. -/
def ResponseWriter.Build (r : ResponseWriter) (status : Nat) (body : String) :
    ResponseWriter :=
  { r with body := body, status := status }

/-- `SetHeaders(headers)`: replaces the whole header map, returns the
builder. -/
def ResponseWriter.SetHeaders (r : ResponseWriter) (headers : Headers) :
    ResponseWriter :=
  { r with headers := headers }

/-- `IgnoreLog()`: sets the suppression flag, returns the builder. -/
def ResponseWriter.IgnoreLog (r : ResponseWriter) : ResponseWriter :=
  { r with ignoreLog := true }

/-- Observable effects and outcome of one `Send()` call: the header
key/values added to the sink, the status written, the body handed to the
sink write, the returned error (if any) and the emitted log records. -/
structure SendResult where
  headerAdds : Headers
  statusWritten : Nat
  bodyWrite : String
  result : Except String Unit
  logs : List LogRecord

/-- `Send()`: adds every header to the sink, writes the status, writes the
body; if the body write fails, returns that error without logging; on
success logs one record unless `ignoreLog` is set, then returns `nil`.
`now` models the clock read by `time.Since(r.start)`; `writeErr` is the
outcome of `io.WriteString` on the sink. -/
def ResponseWriter.Send (r : ResponseWriter) (now : Nat)
    (writeErr : Option String) : SendResult :=
  match writeErr with
  | some e =>
    { headerAdds := r.headers
      statusWritten := r.status
      bodyWrite := r.body
      result := .error e
      logs := [] }
  | none =>
    if r.ignoreLog then
      { headerAdds := r.headers
        statusWritten := r.status
        bodyWrite := r.body
        result := .ok ()
        logs := [] }
    else
      { headerAdds := r.headers
        statusWritten := r.status
        bodyWrite := r.body
        result := .ok ()
        logs := [{ status := r.status
                   elapsed := now - r.start
                   addr := logAddr r.remoteAddr
                   method := r.method
                   url := r.url }] }

/-- `AsJson(status, body)`: marshal the body (`json.Marshal` is modelled by
the `marshal` parameter since `encoding/json` is outside the repository);
on marshal failure return that error with no send; otherwise set the
`content-type` header to `application/json`, build, call `Send()`
*discarding its result*, and return `nil`.  The second component records
whether a send occurred and, if so, its effects. -/
def ResponseWriter.AsJson {B : Type} (r : ResponseWriter)
    (marshal : B → Except String String) (status : Nat) (body : B)
    (now : Nat) (writeErr : Option String) :
    Except String Unit × Option SendResult :=
  match marshal body with
  | .error e => (.error e, none)
  | .ok b =>
    let r1 : ResponseWriter :=
      { r with headers := ⟨setEntries r.headers.entries "content-type" "application/json"⟩ }
    let r2 := r1.Build status b
    (.ok (), some (r2.Send now writeErr))

/-- Model of the external `html/template` library used by `LoadHTML`:
`parse` models `template.New("template").Parse` (producing a parsed
template of abstract type `T` or a syntax error), `execute` models
`Template.Execute` against a variable mapping of abstract type `V`
(producing the rendered text or a substitution error). -/
structure TemplateEngine (T V : Type) where
  parse : String → Except String T
  execute : T → V → Except String String

namespace CoreTemplates

/-- The `Template` struct of `core/templates/templates.go`: root folder and
the indexed file names. -/
structure Template where
  folder : String
  templates : List String

/-- `LoadTemplateFolder(folder)` from `core/templates/templates.go`: list
the directory; on error wrap it; otherwise keep, in order, the entry names
ending in `.tmpl`. -/
def LoadTemplateFolder (fs : FS) (folder : String) : Except String Template :=
  match fs.readDir folder with
  | .error e => .error ("error reading from folder: " ++ e)
  | .ok entries =>
    .ok { folder := folder
          templates := entries.foldl
            (fun files file => if hasSuffix file ".tmpl" then files ++ [file] else files) [] }

/-- The scan loop of `GetTemplate` from `core/templates/templates.go`.  The
second component is the trace of file paths read from storage. -/
def getTemplateScan (fs : FS) (folder : String) :
    List String → String → Except String String × List String
  | [], filename => (.error ("template " ++ filename ++ " not found"), [])
  | file :: rest, filename =>
    if file = filename then
      match fs.readFile (pathJoin folder file) with
      | .error e => (.error e, [pathJoin folder file])
      | .ok c => (.ok c, [pathJoin folder file])
    else getTemplateScan fs folder rest filename

/-- `GetTemplate(filename)` from `core/templates/templates.go`: linear scan
of the index; on a hit, read the file fresh; otherwise a not-found error. -/
def Template.GetTemplate (t : Template) (fs : FS) (filename : String) :
    Except String String × List String :=
  getTemplateScan fs t.folder t.templates filename

/-- `LoadHTML(name, variables)` from `core/templates/templates.go`: fetch,
parse, execute; any error at any stage yields the empty string. -/
def Template.LoadHTML {T V : Type} (t : Template) (fs : FS)
    (eng : TemplateEngine T V) (name : String) (vars : V) : String :=
  match (t.GetTemplate fs name).1 with
  | .error _ => ""
  | .ok content =>
    match eng.parse content with
    | .error _ => ""
    | .ok tmpl =>
      match eng.execute tmpl vars with
      | .error _ => ""
      | .ok s => s

end CoreTemplates

namespace InternalTemplates

/-- The `Template` struct of `internal/templates/templates.go`. -/
structure Template where
  folder : String
  templates : List String

/-- `LoadTemplateFolder(folder)` from `internal/templates/templates.go`. -/
def LoadTemplateFolder (fs : FS) (folder : String) : Except String Template :=
  match fs.readDir folder with
  | .error e => .error ("error reading from folder: " ++ e)
  | .ok entries =>
    .ok { folder := folder
          templates := entries.foldl
            (fun files file => if hasSuffix file ".tmpl" then files ++ [file] else files) [] }

/-- The scan loop of `GetTemplate` from `internal/templates/templates.go`,
with a trace of file paths read. -/
def getTemplateScan (fs : FS) (folder : String) :
    List String → String → Except String String × List String
  | [], filename => (.error ("template " ++ filename ++ " not found"), [])
  | file :: rest, filename =>
    if file = filename then
      match fs.readFile (pathJoin folder file) with
      | .error e => (.error e, [pathJoin folder file])
      | .ok c => (.ok c, [pathJoin folder file])
    else getTemplateScan fs folder rest filename

/-- `GetTemplate(filename)` from `internal/templates/templates.go`. -/
def Template.GetTemplate (t : Template) (fs : FS) (filename : String) :
    Except String String × List String :=
  getTemplateScan fs t.folder t.templates filename

/-- `LoadHTML(name, variables)` from `internal/templates/templates.go`. -/
def Template.LoadHTML {T V : Type} (t : Template) (fs : FS)
    (eng : TemplateEngine T V) (name : String) (vars : V) : String :=
  match (t.GetTemplate fs name).1 with
  | .error _ => ""
  | .ok content =>
    match eng.parse content with
    | .error _ => ""
    | .ok tmpl =>
      match eng.execute tmpl vars with
      | .error _ => ""
      | .ok s => s

end InternalTemplates

namespace UnnamedTemplates

/-- The `Template` struct of the `package templates` copy in
`unnamed/part_000`. -/
structure Template where
  folder : String
  templates : List String

/-- `LoadTemplateFolder(folder)` from the copy in `unnamed/part_000`. -/
def LoadTemplateFolder (fs : FS) (folder : String) : Except String Template :=
  match fs.readDir folder with
  | .error e => .error ("error reading from folder: " ++ e)
  | .ok entries =>
    .ok { folder := folder
          templates := entries.foldl
            (fun files file => if hasSuffix file ".tmpl" then files ++ [file] else files) [] }

/-- The scan loop of `GetTemplate` from the copy in `unnamed/part_000`,
with a trace of file paths read. -/
def getTemplateScan (fs : FS) (folder : String) :
    List String → String → Except String String × List String
  | [], filename => (.error ("template " ++ filename ++ " not found"), [])
  | file :: rest, filename =>
    if file = filename then
      match fs.readFile (pathJoin folder file) with
      | .error e => (.error e, [pathJoin folder file])
      | .ok c => (.ok c, [pathJoin folder file])
    else getTemplateScan fs folder rest filename

/-- `GetTemplate(filename)` from the copy in `unnamed/part_000`. -/
def Template.GetTemplate (t : Template) (fs : FS) (filename : String) :
    Except String String × List String :=
  getTemplateScan fs t.folder t.templates filename

/-- `LoadHTML(name, variables)` from the copy in `unnamed/part_000`. -/
def Template.LoadHTML {T V : Type} (t : Template) (fs : FS)
    (eng : TemplateEngine T V) (name : String) (vars : V) : String :=
  match (t.GetTemplate fs name).1 with
  | .error _ => ""
  | .ok content =>
    match eng.parse content with
    | .error _ => ""
    | .ok tmpl =>
      match eng.execute tmpl vars with
      | .error _ => ""
      | .ok s => s

end UnnamedTemplates

/-!
Claim theorems.
-/

/-- C3: for every builder whose terminal write succeeds, calling
`IgnoreLog()` before `Send()` yields exactly zero log records, and a
builder on which `IgnoreLog()` was never called (its flag is still the
`false` set at construction, which only `IgnoreLog` ever changes) yields
exactly one. -/
theorem c3_send_log_count (r : ResponseWriter) (now : Nat) :
    (r.IgnoreLog.Send now none).logs.length = 0
    ∧ (r.ignoreLog = false → (r.Send now none).logs.length = 1) := by
  constructor
  · simp [ResponseWriter.Send, ResponseWriter.IgnoreLog]
  · intro h
    simp [ResponseWriter.Send, h]

/-- Witness for C3 on a concrete builder: suppressed send logs nothing,
unsuppressed send logs exactly once. -/
theorem c3_send_log_count_witness :
    ((New "10.0.0.1:54321" "GET" "/index" 0).IgnoreLog.Send 5 none).logs.length = 0
    ∧ ((New "10.0.0.1:54321" "GET" "/index" 0).Send 5 none).logs.length = 1 :=
  ⟨(c3_send_log_count (New "10.0.0.1:54321" "GET" "/index" 0) 5).1,
   (c3_send_log_count (New "10.0.0.1:54321" "GET" "/index" 0) 5).2 rfl⟩

/-- C4: for every builder, if the body write to the sink fails, `Send`
returns exactly that write error and emits no log record, whatever the
`ignoreLog` flag is. -/
theorem c4_send_write_error (r : ResponseWriter) (now : Nat) (e : String) :
    (r.Send now (some e)).result = .error e ∧ (r.Send now (some e)).logs = [] := by
  constructor <;> rfl

/-- C5: for every builder and header mappings `h` and `h2`, `SetHeaders h`
then `SetHeaders h2` leaves the header set equal to exactly `h2`; at `Send`
exactly `h2` is added to the sink, and any key absent from `h2` (in
particular a key of `h` not in `h2`) is absent from what is written. -/
theorem c5_setHeaders_replaces (r : ResponseWriter) (h h2 : Headers)
    (now : Nat) (writeErr : Option String) :
    ((r.SetHeaders h).SetHeaders h2).headers = h2
    ∧ (((r.SetHeaders h).SetHeaders h2).Send now writeErr).headerAdds = h2
    ∧ ∀ k, h2.lookup k = none →
        Headers.lookup ((((r.SetHeaders h).SetHeaders h2).Send now writeErr).headerAdds) k = none := by
  refine ⟨rfl, ?_, ?_⟩
  · cases writeErr with
    | some e => rfl
    | none =>
      by_cases hi : r.ignoreLog <;>
        simp [ResponseWriter.Send, ResponseWriter.SetHeaders, hi]
  · intro k hk
    have hadds : (((r.SetHeaders h).SetHeaders h2).Send now writeErr).headerAdds = h2 := by
      cases writeErr with
      | some e => rfl
      | none =>
        by_cases hi : r.ignoreLog <;>
          simp [ResponseWriter.Send, ResponseWriter.SetHeaders, hi]
    rw [hadds]
    exact hk

/-- Witness for C5 on concrete headers: after replacing
`x-old, content-type` with a lone `content-type`, the stale `x-old` key is
not written. -/
theorem c5_setHeaders_replaces_witness :
    (((New "1.2.3.4:80" "GET" "/" 0).SetHeaders ⟨[("x-old", "1"), ("content-type", "text/plain")]⟩).SetHeaders
        ⟨[("content-type", "text/html")]⟩).headers = ⟨[("content-type", "text/html")]⟩
    ∧ Headers.lookup (((((New "1.2.3.4:80" "GET" "/" 0).SetHeaders
          ⟨[("x-old", "1"), ("content-type", "text/plain")]⟩).SetHeaders
          ⟨[("content-type", "text/html")]⟩).Send 7 none).headerAdds) "x-old" = none :=
  ⟨(c5_setHeaders_replaces (New "1.2.3.4:80" "GET" "/" 0) ⟨[("x-old", "1"), ("content-type", "text/plain")]⟩
      ⟨[("content-type", "text/html")]⟩ 7 none).1,
   (c5_setHeaders_replaces (New "1.2.3.4:80" "GET" "/" 0) ⟨[("x-old", "1"), ("content-type", "text/plain")]⟩
      ⟨[("content-type", "text/html")]⟩ 7 none).2.2 "x-old" (by decide)⟩

/-- C9: for every builder that logs (flag unset, write succeeded), the
logged address is the prefix of the remote address before its first colon
when a colon occurs in it, and the remote address unchanged otherwise. -/
theorem c9_logged_addr (r : ResponseWriter) (now : Nat) (h : r.ignoreLog = false) :
    (':' ∈ r.remoteAddr.data →
       ((r.Send now none).logs.map LogRecord.addr)
         = [String.mk (r.remoteAddr.data.takeWhile (fun c => c != ':'))])
    ∧ (':' ∉ r.remoteAddr.data →
       ((r.Send now none).logs.map LogRecord.addr) = [r.remoteAddr]) := by
  have haddr : logAddr r.remoteAddr
      = String.mk (r.remoteAddr.data.takeWhile (fun c => c != ':')) := by
    unfold logAddr
    rw [splitGo_headD]
  constructor
  · intro _
    simp [ResponseWriter.Send, h, haddr]
  · intro hni
    have htake : r.remoteAddr.data.takeWhile (fun c => c != ':') = r.remoteAddr.data := by
      apply List.takeWhile_eq_self_iff.mpr
      intro c hc
      simp only [bne_iff_ne, ne_eq]
      intro hcontra
      exact hni (hcontra ▸ hc)
    have hmk : String.mk r.remoteAddr.data = r.remoteAddr := by
      cases r.remoteAddr
      rfl
    simp [ResponseWriter.Send, h, haddr, htake, hmk]

/-- Witness for C9: `10.0.0.1:54321` is logged as `10.0.0.1`, and a
colon-free address `localhost` is logged unchanged. -/
theorem c9_logged_addr_witness :
    (((New "10.0.0.1:54321" "GET" "/index" 0).Send 5 none).logs.map LogRecord.addr) = ["10.0.0.1"]
    ∧ (((New "localhost" "GET" "/index" 0).Send 5 none).logs.map LogRecord.addr) = ["localhost"] := by
  constructor
  · rw [(c9_logged_addr (New "10.0.0.1:54321" "GET" "/index" 0) 5 rfl).1 (by decide)]
    decide
  · exact (c9_logged_addr (New "localhost" "GET" "/index" 0) 5 rfl).2 (by decide)

/-- The scan loop misses: a filename absent from the scanned index yields
the not-found error and performs no file read, for every filesystem. -/
theorem getTemplateScan_not_found (fs : FS) (folder : String) (files : List String)
    (name : String) (h : name ∉ files) :
    CoreTemplates.getTemplateScan fs folder files name
      = (.error ("template " ++ name ++ " not found"), []) := by
  induction files with
  | nil => rfl
  | cons file rest ih =>
    have hne : file ≠ name := fun hcontra => h (hcontra ▸ List.mem_cons_self file rest)
    have hrest : name ∉ rest := fun hm => h (List.mem_cons_of_mem file hm)
    simp [CoreTemplates.getTemplateScan, hne, ih hrest]

/-- The scan loop hits: an indexed filename yields one fresh read of
`folder/name`, whose outcome is returned as-is. -/
theorem getTemplateScan_found (fs : FS) (folder : String) (files : List String)
    (name : String) (h : name ∈ files) :
    CoreTemplates.getTemplateScan fs folder files name
      = (fs.readFile (pathJoin folder name), [pathJoin folder name]) := by
  induction files with
  | nil => exact absurd h (List.not_mem_nil name)
  | cons file rest ih =>
    by_cases hf : file = name
    · subst hf
      simp only [CoreTemplates.getTemplateScan, if_pos rfl]
      cases fs.readFile (pathJoin folder file) <;> rfl
    · have hrest : name ∈ rest := by
        cases List.mem_cons.mp h with
        | inl hcontra => exact absurd hcontra.symm hf
        | inr hm => exact hm
      simp [CoreTemplates.getTemplateScan, hf, ih hrest]

/-- C6: for every registry and filesystem, `GetTemplate` of a name absent
from the index fails with the not-found error and reads no file (whatever
the filesystem holds, so even when such a file exists); `GetTemplate` of an
indexed name performs exactly one fresh read of `folder/name` and returns
its raw contents or read error as-is. -/
theorem c6_getTemplate (fs : FS) (t : CoreTemplates.Template) (name : String) :
    (name ∉ t.templates →
       t.GetTemplate fs name = (.error ("template " ++ name ++ " not found"), []))
    ∧ (name ∈ t.templates →
       t.GetTemplate fs name = (fs.readFile (pathJoin t.folder name), [pathJoin t.folder name])) :=
  ⟨fun h => getTemplateScan_not_found fs t.folder t.templates name h,
   fun h => getTemplateScan_found fs t.folder t.templates name h⟩

/-- Filesystem used by the concrete template witnesses: a directory
`./templates` holding `a.tmpl`, `b.tmpl` and `c.txt`, all three files
readable. -/
def witnessFS : FS :=
  { readDir := fun p =>
      if p = "./templates" then .ok ["a.tmpl", "b.tmpl", "c.txt"]
      else .error "open: no such directory"
    readFile := fun p =>
      if p = "./templates/a.tmpl" then .ok "hello"
      else if p = "./templates/b.tmpl" then .ok "bee"
      else if p = "./templates/c.txt" then .ok "ctext"
      else .error "open: no such file" }

/-- Registry state over `./templates` as built by the loader: `c.txt` is
excluded from the index. -/
def witnessT : CoreTemplates.Template :=
  { folder := "./templates", templates := ["a.tmpl", "b.tmpl"] }

/-- Witness for C6: `c.txt` exists and is readable on the witness
filesystem, yet `GetTemplate "c.txt"` returns the not-found error with no
read; `GetTemplate "a.tmpl"` reads the file fresh and returns its
contents. -/
theorem c6_getTemplate_witness :
    witnessFS.readFile "./templates/c.txt" = .ok "ctext"
    ∧ witnessT.GetTemplate witnessFS "c.txt"
        = (.error "template c.txt not found", [])
    ∧ witnessT.GetTemplate witnessFS "a.tmpl" = (.ok "hello", ["./templates/a.tmpl"]) := by
  refine ⟨rfl, ?_, ?_⟩
  · exact (c6_getTemplate witnessFS witnessT "c.txt").1 (by decide)
  · rw [(c6_getTemplate witnessFS witnessT "a.tmpl").2 (by decide)]
    rfl

/-- The loader's accumulation loop is the suffix filter. -/
theorem loadFolder_foldl_filter (entries : List String) (acc : List String) :
    entries.foldl
        (fun files file => if hasSuffix file ".tmpl" then files ++ [file] else files) acc
      = acc ++ entries.filter (fun file => hasSuffix file ".tmpl") := by
  induction entries generalizing acc with
  | nil => simp
  | cons file rest ih =>
    by_cases h : hasSuffix file ".tmpl"
    · simp [List.foldl_cons, h, ih, List.filter_cons]
    · simp [List.foldl_cons, h, ih, List.filter_cons]

/-- C7: for every filesystem and directory path, if the listing fails the
loader fails with the wrapped directory-read error; otherwise it succeeds
and stores the root path together with exactly the direct entry names
ending in `.tmpl`. -/
theorem c7_loadTemplateFolder (fs : FS) (folder : String) :
    (∀ e, fs.readDir folder = .error e →
       CoreTemplates.LoadTemplateFolder fs folder
         = .error ("error reading from folder: " ++ e))
    ∧ (∀ entries, fs.readDir folder = .ok entries →
       ∃ t, CoreTemplates.LoadTemplateFolder fs folder = .ok t
         ∧ t.folder = folder
         ∧ ∀ nm, nm ∈ t.templates ↔ (nm ∈ entries ∧ hasSuffix nm ".tmpl" = true)) := by
  constructor
  · intro e he
    simp [CoreTemplates.LoadTemplateFolder, he]
  · intro entries he
    refine ⟨{ folder := folder,
              templates := entries.foldl
                (fun files file => if hasSuffix file ".tmpl" then files ++ [file] else files) [] },
            ?_, rfl, ?_⟩
    · simp [CoreTemplates.LoadTemplateFolder, he]
    · intro nm
      rw [loadFolder_foldl_filter entries []]
      simp [List.mem_filter]

/-- Witness for C7: loading `./templates` (which holds `a.tmpl`, `b.tmpl`,
`c.txt`) succeeds and indexes exactly `a.tmpl` and `b.tmpl`. -/
theorem c7_loadTemplateFolder_witness :
    ∃ t, CoreTemplates.LoadTemplateFolder witnessFS "./templates" = .ok t
      ∧ t.folder = "./templates"
      ∧ ("a.tmpl" ∈ t.templates ∧ "b.tmpl" ∈ t.templates ∧ "c.txt" ∉ t.templates) := by
  obtain ⟨t, hok, hfolder, hmem⟩ :=
    (c7_loadTemplateFolder witnessFS "./templates").2 ["a.tmpl", "b.tmpl", "c.txt"] rfl
  refine ⟨t, hok, hfolder, ?_, ?_, ?_⟩
  · exact (hmem "a.tmpl").mpr (by decide)
  · exact (hmem "b.tmpl").mpr (by decide)
  · intro hc
    have := (hmem "c.txt").mp hc
    exact absurd this.2 (by decide)

/-- C2: for every filesystem, engine, registry, name and variables,
whenever any stage fails — lookup/read (`GetTemplate`), parse, or execute —
`LoadHTML` returns the empty string (and, returning a plain `String`,
surfaces no error to the caller); when all stages succeed it returns the
rendered text. -/
theorem c2_loadHTML {T V : Type} (fs : FS) (eng : TemplateEngine T V)
    (t : CoreTemplates.Template) (name : String) (vars : V) :
    (((∃ e, (t.GetTemplate fs name).1 = .error e)
        ∨ (∃ c e, (t.GetTemplate fs name).1 = .ok c ∧ eng.parse c = .error e)
        ∨ (∃ c tm e, (t.GetTemplate fs name).1 = .ok c ∧ eng.parse c = .ok tm
             ∧ eng.execute tm vars = .error e))
      → t.LoadHTML fs eng name vars = "")
    ∧ (∀ c tm out, (t.GetTemplate fs name).1 = .ok c → eng.parse c = .ok tm →
        eng.execute tm vars = .ok out → t.LoadHTML fs eng name vars = out) := by
  constructor
  · intro hfail
    rcases hfail with ⟨e, he⟩ | ⟨c, e, hc, he⟩ | ⟨c, tm, e, hc, htm, he⟩
    · simp [CoreTemplates.Template.LoadHTML, he]
    · simp [CoreTemplates.Template.LoadHTML, hc, he]
    · simp [CoreTemplates.Template.LoadHTML, hc, htm, he]
  · intro c tm out hc htm hout
    simp [CoreTemplates.Template.LoadHTML, hc, htm, hout]

/-- Engine used by the concrete rendering witnesses: parsing returns the
source text, execution appends the variable string. -/
def witnessEngine : TemplateEngine String String :=
  { parse := fun s => .ok s
    execute := fun tmpl vars => .ok (tmpl ++ " " ++ vars) }

/-- Witness for C2: a successful render of `a.tmpl` returns the rendered
text, and a render of the unindexed `c.txt` returns the empty string with
no error. -/
theorem c2_loadHTML_witness :
    witnessT.LoadHTML witnessFS witnessEngine "a.tmpl" "world" = "hello world"
    ∧ witnessT.LoadHTML witnessFS witnessEngine "c.txt" "world" = "" := by
  constructor
  · exact (c2_loadHTML witnessFS witnessEngine witnessT "a.tmpl" "world").2
      "hello" "hello" "hello world" rfl rfl rfl
  · exact (c2_loadHTML witnessFS witnessEngine witnessT "c.txt" "world").1
      (Or.inl ⟨"template c.txt not found", rfl⟩)

/-- `Send` hands exactly the builder's header set to the sink, in every
outcome branch. -/
theorem send_headerAdds (r : ResponseWriter) (now : Nat) (writeErr : Option String) :
    (r.Send now writeErr).headerAdds = r.headers := by
  cases writeErr with
  | some e => rfl
  | none => by_cases h : r.ignoreLog <;> simp [ResponseWriter.Send, h]

/-- `Send` writes exactly the builder's status, in every outcome branch. -/
theorem send_statusWritten (r : ResponseWriter) (now : Nat) (writeErr : Option String) :
    (r.Send now writeErr).statusWritten = r.status := by
  cases writeErr with
  | some e => rfl
  | none => by_cases h : r.ignoreLog <;> simp [ResponseWriter.Send, h]

/-- `Send` hands exactly the builder's body to the sink write, in every
outcome branch. -/
theorem send_bodyWrite (r : ResponseWriter) (now : Nat) (writeErr : Option String) :
    (r.Send now writeErr).bodyWrite = r.body := by
  cases writeErr with
  | some e => rfl
  | none => by_cases h : r.ignoreLog <;> simp [ResponseWriter.Send, h]

/-- C8: for every builder and marshaller, if marshalling fails `AsJson`
returns that error immediately and no send (hence no sink write) occurs;
if marshalling succeeds, the send carries the marshalled text as body, the
given status, a `content-type` header forced to `application/json`, and
every other header key unchanged from the builder's header set. -/
theorem c8_asJson {B : Type} (r : ResponseWriter) (marshal : B → Except String String)
    (status : Nat) (body : B) (now : Nat) (writeErr : Option String) :
    (∀ e, marshal body = .error e →
       r.AsJson marshal status body now writeErr = (.error e, none))
    ∧ (∀ b, marshal body = .ok b →
       ∃ sr, (r.AsJson marshal status body now writeErr).2 = some sr
         ∧ sr.bodyWrite = b
         ∧ sr.statusWritten = status
         ∧ sr.headerAdds.lookup "content-type" = some "application/json"
         ∧ ∀ k, k ≠ "content-type" → sr.headerAdds.lookup k = r.headers.lookup k) := by
  constructor
  · intro e he
    simp [ResponseWriter.AsJson, he]
  · intro b hb
    refine ⟨(ResponseWriter.Build
        { r with headers := ⟨setEntries r.headers.entries "content-type" "application/json"⟩ }
        status b).Send now writeErr, ?_, ?_, ?_, ?_, ?_⟩
    · simp [ResponseWriter.AsJson, hb]
    · simp [send_bodyWrite, ResponseWriter.Build]
    · simp [send_statusWritten, ResponseWriter.Build]
    · rw [send_headerAdds]
      exact lookupEntries_setEntries_same r.headers.entries "content-type" "application/json"
    · intro k hk
      rw [send_headerAdds]
      exact lookupEntries_setEntries_other r.headers.entries "content-type" "application/json" k hk

/-- Builder with pre-set headers used by the `AsJson` witnesses. -/
def c8RW : ResponseWriter :=
  (New "10.0.0.1:54321" "GET" "/api" 0).SetHeaders
    ⟨[("content-type", "text/plain"), ("x-req", "7")]⟩

/-- Marshaller that succeeds with a fixed JSON text. -/
def okMarshal : Unit → Except String String := fun _ => .ok "jsonbody"

/-- Marshaller that fails, modelling an unsupported value in the body
mapping. -/
def errMarshal : Unit → Except String String := fun _ => .error "unsupported type"

/-- Witness for C8: on a concrete builder, a successful marshal forces
`content-type` to `application/json`, keeps `x-req`, and sends the
marshalled body with the given status; a failing marshal returns its error
with no send. -/
theorem c8_asJson_witness :
    (∃ sr, (c8RW.AsJson okMarshal 201 () 4 none).2 = some sr
      ∧ sr.bodyWrite = "jsonbody"
      ∧ sr.statusWritten = 201
      ∧ sr.headerAdds.lookup "content-type" = some "application/json"
      ∧ sr.headerAdds.lookup "x-req" = some "7")
    ∧ c8RW.AsJson errMarshal 201 () 4 none = (.error "unsupported type", none) := by
  constructor
  · obtain ⟨sr, h2, hbody, hstatus, hct, hother⟩ :=
      (c8_asJson c8RW okMarshal 201 () 4 none).2 "jsonbody" rfl
    refine ⟨sr, h2, hbody, hstatus, hct, ?_⟩
    rw [hother "x-req" (by decide)]
    decide
  · exact (c8_asJson c8RW errMarshal 201 () 4 none).1 "unsupported type" rfl

/-- C1 counterexample: a builder whose marshal succeeds and whose sink
write fails with `broken pipe` — the inner send fails with exactly that
write error, yet `AsJson` returns success, not the write error, because
the code discards the result of `r.Send()` and returns `nil`. -/
theorem c1_counterexample :
    ((c8RW.AsJson okMarshal 200 () 3 (some "broken pipe")).2.map SendResult.result)
        = some (.error "broken pipe")
    ∧ (c8RW.AsJson okMarshal 200 () 3 (some "broken pipe")).1 = .ok ()
    ∧ (c8RW.AsJson okMarshal 200 () 3 (some "broken pipe")).1 ≠ .error "broken pipe" := by
  refine ⟨rfl, rfl, ?_⟩
  intro hcontra
  exact Except.noConfusion hcontra

/-- C1 (amended): for every builder and marshaller, if marshalling
succeeds but the terminal send fails with a sink write error, `AsJson`
still returns success to the caller — the write error is swallowed by the
convenience wrapper, not surfaced. -/
theorem c1_asJson_write_error_swallowed {B : Type} (r : ResponseWriter)
    (marshal : B → Except String String) (status : Nat) (body : B) (b : String)
    (now : Nat) (e : String) (hb : marshal body = .ok b) :
    (r.AsJson marshal status body now (some e)).1 = .ok ()
    ∧ ∃ sr, (r.AsJson marshal status body now (some e)).2 = some sr
        ∧ sr.result = .error e := by
  refine ⟨?_, (ResponseWriter.Build
      { r with headers := ⟨setEntries r.headers.entries "content-type" "application/json"⟩ }
      status b).Send now (some e), ?_, rfl⟩
  · simp [ResponseWriter.AsJson, hb]
  · simp [ResponseWriter.AsJson, hb]

/-- Witness for the amended C1 on the concrete builder: the send inside
`AsJson` fails with `broken pipe`, and `AsJson` returns success. -/
theorem c1_asJson_write_error_swallowed_witness :
    (c8RW.AsJson okMarshal 200 () 3 (some "broken pipe")).1 = .ok ()
    ∧ ∃ sr, (c8RW.AsJson okMarshal 200 () 3 (some "broken pipe")).2 = some sr
        ∧ sr.result = .error "broken pipe" :=
  c1_asJson_write_error_swallowed c8RW okMarshal 200 () "jsonbody" 3 "broken pipe" rfl

/-- The scan loops of the core and internal registry copies agree on every
input. -/
theorem scan_core_eq_internal (fs : FS) (folder : String) (files : List String)
    (name : String) :
    CoreTemplates.getTemplateScan fs folder files name
      = InternalTemplates.getTemplateScan fs folder files name := by
  induction files with
  | nil => rfl
  | cons file rest ih =>
    by_cases h : file = name
    · simp [CoreTemplates.getTemplateScan, InternalTemplates.getTemplateScan, h]
    · simp [CoreTemplates.getTemplateScan, InternalTemplates.getTemplateScan, h, ih]

/-- The scan loops of the core registry and the copy in `unnamed/part_000`
agree on every input. -/
theorem scan_core_eq_unnamed (fs : FS) (folder : String) (files : List String)
    (name : String) :
    CoreTemplates.getTemplateScan fs folder files name
      = UnnamedTemplates.getTemplateScan fs folder files name := by
  induction files with
  | nil => rfl
  | cons file rest ih =>
    by_cases h : file = name
    · simp [CoreTemplates.getTemplateScan, UnnamedTemplates.getTemplateScan, h]
    · simp [CoreTemplates.getTemplateScan, UnnamedTemplates.getTemplateScan, h, ih]

/-- C10: the three template-registry copies (`core/templates`,
`internal/templates`, and the one in `unnamed/part_000`) are behaviorally
identical: for every filesystem, folder, registry state (root and index),
template name, engine and variable mapping, `LoadTemplateFolder` produces
the same error or the same root-and-index pair, and `GetTemplate` and
`LoadHTML` produce equal results. -/
theorem c10_registries_identical {T V : Type} (fs : FS) (folder root name : String)
    (files : List String) (eng : TemplateEngine T V) (vars : V) :
    ((CoreTemplates.LoadTemplateFolder fs folder).map (fun t => (t.folder, t.templates))
       = (InternalTemplates.LoadTemplateFolder fs folder).map (fun t => (t.folder, t.templates)))
    ∧ ((CoreTemplates.LoadTemplateFolder fs folder).map (fun t => (t.folder, t.templates))
       = (UnnamedTemplates.LoadTemplateFolder fs folder).map (fun t => (t.folder, t.templates)))
    ∧ (CoreTemplates.Template.GetTemplate ⟨root, files⟩ fs name
       = InternalTemplates.Template.GetTemplate ⟨root, files⟩ fs name)
    ∧ (CoreTemplates.Template.GetTemplate ⟨root, files⟩ fs name
       = UnnamedTemplates.Template.GetTemplate ⟨root, files⟩ fs name)
    ∧ (CoreTemplates.Template.LoadHTML ⟨root, files⟩ fs eng name vars
       = InternalTemplates.Template.LoadHTML ⟨root, files⟩ fs eng name vars)
    ∧ (CoreTemplates.Template.LoadHTML ⟨root, files⟩ fs eng name vars
       = UnnamedTemplates.Template.LoadHTML ⟨root, files⟩ fs eng name vars) := by
  refine ⟨?_, ?_, scan_core_eq_internal fs root files name,
    scan_core_eq_unnamed fs root files name, ?_, ?_⟩
  · cases h : fs.readDir folder <;>
      simp [CoreTemplates.LoadTemplateFolder, InternalTemplates.LoadTemplateFolder, h, Except.map]
  · cases h : fs.readDir folder <;>
      simp [CoreTemplates.LoadTemplateFolder, UnnamedTemplates.LoadTemplateFolder, h, Except.map]
  · simp only [CoreTemplates.Template.LoadHTML, InternalTemplates.Template.LoadHTML,
      CoreTemplates.Template.GetTemplate, InternalTemplates.Template.GetTemplate]
    rw [scan_core_eq_internal fs root files name]
  · simp only [CoreTemplates.Template.LoadHTML, UnnamedTemplates.Template.LoadHTML,
      CoreTemplates.Template.GetTemplate, UnnamedTemplates.Template.GetTemplate]
    rw [scan_core_eq_unnamed fs root files name]

end Gomechan
